import Mathlib

/-!
Shallow embedding of `rasa/model_training.py` and
`rasa/nlu/tokenizers/tokenizer.py` from the repository, together with
theorems settling the specification claims about them.

Conventions of the embedding:
* Python `Optional[T]` becomes `Option T`; `Text` becomes `String`.
* Side effects (training, packaging, console printing) are made explicit
  as a trace of `Effect` values returned alongside the result.
* Collaborators that live outside the excerpt (`rasa.model`,
  the `TrainingDataImporter`) are represented by an environment record of
  opaque data and functions; definitions taken from the spec rather than
  from source are marked `Modelled from the spec:`.
-/

namespace Rasa

/-- Modelled from the spec: `FingerprintComparisonResult` is defined in
`rasa.model`, which is not part of the excerpt.  The spec describes it as "a
small record of boolean flags — {core-stage changed, nlu-stage changed,
responses/nlg-only changed, force-training requested} — plus a derived
predicate 'training required'". -/
structure FingerprintComparisonResult where
  core : Bool
  nlu : Bool
  nlg : Bool
  force_training : Bool
deriving DecidableEq, Repr

/-- Modelled from the spec: "`isTrainingRequired()` is true iff any of the
three signals is set or the force flag was set." -/
def FingerprintComparisonResult.is_training_required
    (fc : FingerprintComparisonResult) : Bool :=
  fc.core || fc.nlu || fc.nlg || fc.force_training

/-- Modelled from the spec: the source constructs
`FingerprintComparisonResult(force_training=True)` with every other flag at
its default; per the spec the force flag short-circuits to "everything
changed", so the default for each change flag is `true`. -/
def forcedComparisonResult : FingerprintComparisonResult :=
  { core := true, nlu := true, nlg := true, force_training := true }

/-- `CODE_CORE_NEEDS_TO_BE_RETRAINED = 0b0001` in `model_training.py`. -/
def CODE_CORE_NEEDS_TO_BE_RETRAINED : Nat := 1

/-- `CODE_NLU_NEEDS_TO_BE_RETRAINED = 0b0010` in `model_training.py`. -/
def CODE_NLU_NEEDS_TO_BE_RETRAINED : Nat := 2

/-- `CODE_NLG_NEEDS_TO_BE_RETRAINED = 0b0100` in `model_training.py`. -/
def CODE_NLG_NEEDS_TO_BE_RETRAINED : Nat := 4

/-- `CODE_FORCED_TRAINING = 0b1000` in `model_training.py`. -/
def CODE_FORCED_TRAINING : Nat := 8

/-- `TrainingResult` from `model_training.py`: a named tuple with fields
`model: Optional[Text] = None` and `code: int = 0`. -/
structure TrainingResult where
  model : Option String := none
  code : Nat := 0
deriving DecidableEq, Repr

/-- `dry_run_result` from `model_training.py`, embedded statement by
statement: the sequential `code += ...` / `texts.append(...)` updates become
explicit state threading. -/
def dry_run_result (fingerprint_comparison : FingerprintComparisonResult) :
    Nat × List String :=
  let code : Nat := 0
  let texts : List String := []
  if fingerprint_comparison.force_training then
    (CODE_FORCED_TRAINING, texts ++ ["The training was forced."])
  else
    let (code, texts) :=
      if fingerprint_comparison.core then
        (code + CODE_CORE_NEEDS_TO_BE_RETRAINED,
          texts ++ ["Core model should be retrained."])
      else (code, texts)
    let (code, texts) :=
      if fingerprint_comparison.nlu then
        (code + CODE_NLU_NEEDS_TO_BE_RETRAINED,
          texts ++ ["NLU model should be retrained."])
      else (code, texts)
    let (code, texts) :=
      if fingerprint_comparison.nlg then
        (code + CODE_NLG_NEEDS_TO_BE_RETRAINED,
          texts ++ ["Responses in the domain should be updated."])
      else (code, texts)
    let texts := if code == 0 then texts ++ ["No training required."] else texts
    (code, texts)

/-- Observable effects of a training invocation.  `trainNlu`, `trainCore` and
`doTraining` mark an execution of `_train_nlu_with_validated_data`,
`_train_core_with_validated_data` and `_do_training` respectively — each of
those trains and packages a model archive in the source.  The `print*`
constructors mark console output via `rasa.shared.utils.cli`;
`markExperimental` marks `mark_as_experimental_feature`; `packaged` marks
an explicit `model.package_model` call producing a new archive. -/
inductive Effect where
  | trainNlu
  | trainCore
  | doTraining
  | printError (msg : String)
  | printWarning (msg : String)
  | printSuccess (msg : String)
  | printInfo (msg : String)
  | markExperimental (feature : String)
  | packaged
deriving DecidableEq, Repr

/-- An effect that trains or packages a model, as opposed to mere console
output. -/
def Effect.isTraining : Effect → Bool
  | .trainNlu => true
  | .trainCore => true
  | .doTraining => true
  | .packaged => true
  | _ => false

/-- The answers the `TrainingDataImporter` collaborator gives for one
invocation: `domain.is_empty()`, `stories.is_empty()`,
`nlu_data.contains_no_pure_nlu_data()` and `nlu_data.has_e2e_examples()`. -/
structure Importer where
  domainEmpty : Bool
  storiesEmpty : Bool
  noPureNluData : Bool
  hasE2eExamples : Bool

/-- Environment of one `train_async` invocation: the importer's answers plus
the behaviour of the collaborators from `rasa.model` that the excerpt calls.
`oldModel` is `model.get_latest_model(output_path)`; `shouldRetrain force
hasE2e` is `model.should_retrain(new_fingerprint, old_model, train_path,
...)` with the given keyword arguments; `nluModel`, `coreModel` and
`fullModel` are the archive locations that `_train_nlu_with_validated_data`,
`_train_core_with_validated_data` and `_do_training` would return. -/
structure Env where
  importer : Importer
  oldModel : Option String
  shouldRetrain : Bool → Bool → FingerprintComparisonResult
  nluModel : String
  coreModel : String
  fullModel : String

/-- `handle_domain_if_not_exists` from `model_training.py`: trains only the
NLU model, then prints a warning about the missing domain. -/
def handle_domain_if_not_exists (env : Env) : String × List Effect :=
  (env.nluModel,
    [Effect.trainNlu,
     Effect.printWarning
       ("Core training was skipped because no valid domain file was found. " ++
        "Only an NLU-model was created. Please specify a valid domain using " ++
        "the '--domain' argument or check if the provided domain file exists.")])

/-- The fingerprint comparison `_train_async_internal` builds on its main
(non-dry-run, full-data) path: `model.should_retrain(new_fingerprint,
old_model, train_path, has_e2e_examples=...)` when `force_training` is not
set, and `FingerprintComparisonResult(force_training=True)` — built without
consulting `should_retrain` — when it is. -/
def internalComparison (env : Env) (force_training : Bool) :
    FingerprintComparisonResult :=
  if !force_training then
    env.shouldRetrain false env.importer.hasE2eExamples
  else forcedComparisonResult

/-- `_train_async_internal` from `model_training.py`, reached only when the
domain is non-empty.  Follows the source's branch order: dry run, the
experimental-feature marking for end-to-end examples, the three data-absence
branches, then the fingerprint comparison (skipped when `force_training`)
and the train-or-reuse decision.  `os.path.abspath` in the "nothing
changed" message is modelled as the identity on paths. -/
def trainAsyncInternal (env : Env) (dry_run force_training : Bool) :
    TrainingResult × List Effect :=
  if dry_run then
    let fingerprint_comparison := env.shouldRetrain force_training false
    let (code, texts) := dry_run_result fingerprint_comparison
    (⟨none, code⟩,
      texts.map fun t =>
        if code > 0 then Effect.printWarning t else Effect.printSuccess t)
  else
    let marks :=
      if env.importer.hasE2eExamples then
        [Effect.markExperimental "end-to-end training"]
      else []
    if env.importer.storiesEmpty && env.importer.noPureNluData then
      (⟨none, 0⟩,
        marks ++
          [Effect.printError
            ("No training data given. Please provide stories and NLU data in " ++
             "order to train a Rasa model using the '--data' argument.")])
    else if env.importer.storiesEmpty then
      (⟨some env.nluModel, 0⟩,
        marks ++
          [Effect.printWarning
             "No stories present. Just a Rasa NLU model will be trained.",
           Effect.trainNlu])
    else if env.importer.noPureNluData && !env.importer.hasE2eExamples then
      (⟨some env.coreModel, 0⟩,
        marks ++
          [Effect.printWarning
             "No NLU data present. Just a Rasa Core model will be trained.",
           Effect.trainCore])
    else
      let fingerprint_comparison := internalComparison env force_training
      if env.oldModel.isNone || fingerprint_comparison.is_training_required then
        (⟨some env.fullModel, 0⟩, marks ++ [Effect.doTraining])
      else
        (⟨env.oldModel, 0⟩,
          marks ++
            [Effect.printSuccess
              ("Nothing changed. You can use the old model stored at '" ++
               env.oldModel.getD "" ++ "'.")])

/-- `train_async` from `model_training.py`: loads the importer, and when the
imported domain is empty delegates to `handle_domain_if_not_exists`
(returning its model in a default-code `TrainingResult`), otherwise runs
`_train_async_internal`. -/
def train_async (env : Env) (dry_run force_training : Bool) :
    TrainingResult × List Effect :=
  if env.importer.domainEmpty then
    let (nlu_model, effs) := handle_domain_if_not_exists env
    (⟨some nlu_model, 0⟩, effs)
  else
    trainAsyncInternal env dry_run force_training

/-- Environment of a fine-tuning model resolution.  `pathToArchive` is
`model.get_model_for_finetuning(model_to_finetune)`; `canFinetune core nlu`
is `model.can_finetune(old_fingerprint, new_fingerprint, core=core,
nlu=nlu)` (keyword arguments in source order; an omitted keyword is the
default `False`); `agentOk` says whether the loaded `Agent` has both a
domain and a policy ensemble; `interpreterOk` says whether
`Interpreter.load` returned a model. -/
structure FinetuneEnv where
  pathToArchive : Option String
  canFinetune : Bool → Bool → Bool
  agentOk : Bool
  interpreterOk : Bool

/-- Outcome of a computation that may call
`rasa.shared.utils.cli.print_error_and_exit`: `fatal msg` models the process
terminating with the given error message, `done a` a normal return. -/
inductive Outcome (α : Type) where
  | fatal (msg : String)
  | done (a : α)
deriving DecidableEq, Repr

/-- `_core_model_for_finetuning` from `model_training.py`: resolve the
archive (returning `None` when none is found), then inside the unpacked
archive check `model.can_finetune(old, new, core=True)` — exiting fatally
when it fails — and load the `Agent`, returning `None` when it is empty.
The loaded agent is modelled as `Unit`. -/
def coreModelForFinetuning (env : FinetuneEnv) : Outcome (Option Unit) :=
  match env.pathToArchive with
  | none => .done none
  | some _ =>
    if !env.canFinetune true false then
      .fatal "Core model can not be finetuned."
    else if env.agentOk then .done (some ()) else .done none

/-- `_nlu_model_for_finetuning` from `model_training.py`: resolve the
archive (returning `None` when none is found), then check
`model.can_finetune(old, new, nlu=True, core=called_from_combined_training)`
— exiting fatally when it fails — and load the `Interpreter`, returning
`None` when loading fails.  The loaded interpreter is modelled as `Unit`. -/
def nluModelForFinetuning (env : FinetuneEnv)
    (called_from_combined_training : Bool) : Outcome (Option Unit) :=
  match env.pathToArchive with
  | none => .done none
  | some _ =>
    if !env.canFinetune called_from_combined_training true then
      .fatal "NLU model can not be finetuned."
    else if env.interpreterOk then .done (some ()) else .done none

/-- The fine-tuning prologue of `_train_core_with_validated_data`: when a
model to fine-tune was requested, resolve it with
`_core_model_for_finetuning` and exit fatally when nothing resolves; only
afterwards train and (when no train path was given) package an archive.
Returns the effect trace of a completed run. -/
def trainCoreWithValidatedData (env : FinetuneEnv)
    (model_to_finetune : Bool) (train_path_given : Bool) :
    Outcome (List Effect) :=
  if model_to_finetune then
    match coreModelForFinetuning env with
    | .fatal msg => .fatal msg
    | .done none =>
      .fatal ("No Core model for finetuning found. Please make sure to " ++
        "either specify a path to a previous model or to have a finetunable " ++
        "model within the output directory.")
    | .done (some _) =>
      .done ([Effect.trainCore] ++
        if train_path_given then [] else [Effect.packaged])
  else
    .done ([Effect.trainCore] ++
      if train_path_given then [] else [Effect.packaged])

/-! Embedding of `rasa/nlu/tokenizers/tokenizer.py`. -/

/-- Modelled from the spec: `MESSAGE_TEXT_ATTRIBUTE` comes from
`rasa.nlu.constants`, which is not part of the excerpt; only its identity as
a distinguished attribute name matters. -/
def MESSAGE_TEXT_ATTRIBUTE : String := "text"

/-- Modelled from the spec: `MESSAGE_RESPONSE_ATTRIBUTE` comes from
`rasa.nlu.constants`, which is not part of the excerpt. -/
def MESSAGE_RESPONSE_ATTRIBUTE : String := "response"

/-- Modelled from the spec: `CLS_TOKEN` comes from `rasa.nlu.constants`,
which is not part of the excerpt; the marker text appended by
`add_cls_token`. -/
def CLS_TOKEN : String := "__CLS__"

/-- The `Token` object of `tokenizer.py` after `__init__` has run: fields
`offset`, `text`, `end`, `data` and `lemma`.  `end` and `lemma` are Lean
keywords, so those fields are named `end'` and `lemma'`; the `data`
dictionary is an association list. -/
structure Token where
  text : String
  offset : Int
  end' : Int
  data : List (String × String)
  lemma' : String
deriving DecidableEq, Repr

/-- `Token.__init__`: the optional arguments default to `None`.  Python
truthiness decides the fallbacks — `self.end = end if end else offset +
len(text)` (so `None` *and* `0` fall back), `self.data = data if data else
{}` and `self.lemma = lemma or text` (so `None` and the empty value fall
back). -/
def mkToken (text : String) (offset : Int)
    (data : Option (List (String × String))) (lem : Option String)
    (end' : Option Int) : Token :=
  { offset := offset
    text := text
    end' :=
      match end' with
      | some e => if e ≠ 0 then e else offset + (text.length : Int)
      | none => offset + (text.length : Int)
    data :=
      match data with
      | some d => if d ≠ [] then d else []
      | none => []
    lemma' :=
      match lem with
      | some l => if l ≠ "" then l else text
      | none => text }

/-- The comparison key Python builds in `Token.__eq__` and `Token.__lt__`:
the tuple `(self.offset, self.end, self.text, self.lemma)`. -/
def Token.key (t : Token) : Int × Int × String × String :=
  (t.offset, t.end', t.text, t.lemma')

/-- `Token.__eq__` (against another `Token`): componentwise equality of the
key tuples. -/
def Token.eq (t other : Token) : Bool :=
  t.key = other.key

/-- `Token.__lt__` (against another `Token`): Python's lexicographic
ordering of the key tuples. -/
def Token.lt (t other : Token) : Bool :=
  if t.offset ≠ other.offset then t.offset < other.offset
  else if t.end' ≠ other.end' then t.end' < other.end'
  else if t.text ≠ other.text then t.text < other.text
  else t.lemma' < other.lemma'

/-- `Tokenizer.add_cls_token`: when the attribute is the response or text
attribute, `use_cls_token` is set and the token list is non-empty, append
one token `Token(CLS_TOKEN, idx)` with `idx = tokens[-1].offset +
len(tokens[-1].text) + 1`; otherwise return the list unchanged.
`use_cls_token` is the tokenizer's configuration field. -/
def add_cls_token (use_cls_token : Bool) (tokens : List Token)
    (attr : String) : List Token :=
  if (attr = MESSAGE_RESPONSE_ATTRIBUTE ∨
        attr = MESSAGE_TEXT_ATTRIBUTE) ∧
      use_cls_token = true ∧ tokens ≠ [] then
    match tokens.getLast? with
    | some last =>
      tokens ++
        [mkToken CLS_TOKEN (last.offset + (last.text.length : Int) + 1)
          none none none]
    | none => tokens
  else
    tokens

/-! Theorems settling the claims. -/

/-- C1: for every `FingerprintComparisonResult` with `force_training` set,
`dry_run_result` returns exactly code `CODE_FORCED_TRAINING` (8) with the
single message "The training was forced.", regardless of the values of the
`core`, `nlu` and `nlg` flags; no other flag contributes to the code. -/
theorem C1_forced_dry_run (fc : FingerprintComparisonResult)
    (h : fc.force_training = true) :
    dry_run_result fc = (CODE_FORCED_TRAINING, ["The training was forced."]) ∧
    CODE_FORCED_TRAINING = 8 := by
  refine ⟨?_, rfl⟩
  simp [dry_run_result, h]

/-- Witness for C1 at a comparison result with `core` and `nlg` also set. -/
theorem C1_forced_dry_run_witness :
    (FingerprintComparisonResult.mk true false true true).force_training
      = true ∧
    dry_run_result ⟨true, false, true, true⟩
      = (8, ["The training was forced."]) := by
  refine ⟨rfl, ?_⟩
  have h := C1_forced_dry_run ⟨true, false, true, true⟩ rfl
  rw [h.1, h.2]

/-- C2: with `force_training` unset, `dry_run_result` returns code 1 for the
`core` flag plus 2 for the `nlu` flag plus 4 for the `nlg` flag; in
particular an nlg-only result yields code 4, and code 0 is returned exactly
when no flag is set, in which case the message says nothing needs doing. -/
theorem C2_dry_run_bitmask (fc : FingerprintComparisonResult)
    (h : fc.force_training = false) :
    (dry_run_result fc).1 =
      (if fc.core then 1 else 0) + (if fc.nlu then 2 else 0) +
        (if fc.nlg then 4 else 0) ∧
    (dry_run_result ⟨false, false, true, false⟩).1 = 4 ∧
    ((dry_run_result fc).1 = 0 ↔
      fc.core = false ∧ fc.nlu = false ∧ fc.nlg = false) ∧
    ((dry_run_result fc).1 = 0 →
      (dry_run_result fc).2 = ["No training required."]) := by
  obtain ⟨c, n, g, f⟩ := fc
  cases h
  cases c <;> cases n <;> cases g <;> decide

/-- Witness for C2 at the nlg-only comparison result. -/
theorem C2_dry_run_bitmask_witness :
    (FingerprintComparisonResult.mk false false true false).force_training
      = false ∧
    (dry_run_result ⟨false, false, true, false⟩).1 =
      (if false then 1 else 0) + (if false then 2 else 0) +
        (if true then 4 else 0) := by
  exact ⟨rfl, (C2_dry_run_bitmask ⟨false, false, true, false⟩ rfl).1⟩

/-- C3: in a non-dry-run invocation of `train` with a non-empty domain, when
a prior archive exists, `force_training` is false, and the fingerprint
comparison — which is performed exactly when stories are present and NLU
data (pure or end-to-end) is present — reports that no training is
required, the operation returns a `TrainingResult` whose `model` field is
the prior archive's location and performs no training and produces no new
archive. -/
theorem C3_no_op_returns_old_model (env : Env) (m : String)
    (hdom : env.importer.domainEmpty = false)
    (hst : env.importer.storiesEmpty = false)
    (hnlu : env.importer.noPureNluData = false ∨
      env.importer.hasE2eExamples = true)
    (hold : env.oldModel = some m)
    (hreq : (env.shouldRetrain false
        env.importer.hasE2eExamples).is_training_required = false) :
    (train_async env false false).1 = ⟨some m, 0⟩ ∧
    ∀ e ∈ (train_async env false false).2, e.isTraining = false := by
  rcases hnlu with h | h <;>
    cases hE : env.importer.hasE2eExamples <;>
      simp_all [train_async, trainAsyncInternal, internalComparison,
        Effect.isTraining]

/-- Witness environment for C3: all data present, a prior archive, and a
comparison reporting no change. -/
def envNoChange : Env :=
  { importer :=
      { domainEmpty := false, storiesEmpty := false,
        noPureNluData := false, hasE2eExamples := false }
    oldModel := some "models/20240101-old.tar.gz"
    shouldRetrain := fun _ _ => ⟨false, false, false, false⟩
    nluModel := "models/nlu-new.tar.gz"
    coreModel := "models/core-new.tar.gz"
    fullModel := "models/full-new.tar.gz" }

/-- Witness for C3 at `envNoChange`. -/
theorem C3_no_op_returns_old_model_witness :
    (train_async envNoChange false false).1
      = ⟨some "models/20240101-old.tar.gz", 0⟩ ∧
    ∀ e ∈ (train_async envNoChange false false).2, e.isTraining = false :=
  C3_no_op_returns_old_model envNoChange "models/20240101-old.tar.gz"
    rfl rfl (Or.inl rfl) rfl rfl

/-- C4: every `train_async` invocation with `dry_run` true and a non-empty
domain returns a `TrainingResult` carrying only the decision code (`model`
is `none`), its effect trace is exactly the printing of the human-readable
reasons computed by `dry_run_result` from the fingerprint comparison, and in
particular no training or packaging effect occurs. -/
theorem C4_dry_run_frame (env : Env) (force : Bool)
    (hdom : env.importer.domainEmpty = false) :
    (train_async env true force).1.model = none ∧
    (train_async env true force).1.code =
      (dry_run_result (env.shouldRetrain force false)).1 ∧
    (train_async env true force).2 =
      (dry_run_result (env.shouldRetrain force false)).2.map
        (fun t =>
          if (dry_run_result (env.shouldRetrain force false)).1 > 0 then
            Effect.printWarning t
          else Effect.printSuccess t) ∧
    ∀ e ∈ (train_async env true force).2, e.isTraining = false := by
  refine ⟨?_, ?_, ?_, ?_⟩ <;>
    simp [train_async, trainAsyncInternal, hdom, Effect.isTraining]
  intro e t
  by_cases h0 : 0 < (dry_run_result (env.shouldRetrain force false)).1 <;>
    simp [h0]

/-- Witness for C4 at `envNoChange` with `force = true`. -/
theorem C4_dry_run_frame_witness :
    (train_async envNoChange true true).1.model = none ∧
    (train_async envNoChange true true).1.code =
      (dry_run_result (envNoChange.shouldRetrain true false)).1 ∧
    (train_async envNoChange true true).2 =
      (dry_run_result (envNoChange.shouldRetrain true false)).2.map
        (fun t =>
          if (dry_run_result (envNoChange.shouldRetrain true false)).1 > 0 then
            Effect.printWarning t
          else Effect.printSuccess t) ∧
    ∀ e ∈ (train_async envNoChange true true).2, e.isTraining = false :=
  C4_dry_run_frame envNoChange true rfl

/-- Counterexample environment for C5: non-empty domain, but no stories and
no pure NLU data. -/
def envForcedNoData : Env :=
  { importer :=
      { domainEmpty := false, storiesEmpty := true,
        noPureNluData := true, hasE2eExamples := false }
    oldModel := none
    shouldRetrain := fun _ _ => ⟨true, true, true, false⟩
    nluModel := "models/nlu-new.tar.gz"
    coreModel := "models/core-new.tar.gz"
    fullModel := "models/full-new.tar.gz" }

/-- C5 counterexample: a non-dry-run invocation with `force_training` true
in which no training is performed at all — with no stories and no pure NLU
data the early "no training data" branch returns before any comparison
result is constructed or any training happens, refuting "training is always
performed". -/
theorem C5_forced_training_counterexample :
    (train_async envForcedNoData false true).1 = ⟨none, 0⟩ ∧
    (train_async envForcedNoData false true).2.all
      (fun e => !e.isTraining) = true := by
  constructor <;> rfl

/-- C5 (amended): in a non-dry-run invocation of `train` with
`force_training` true that reaches the combined Core-and-NLU path
(non-empty domain, non-empty stories, and NLU data — pure or end-to-end —
present), the fingerprint comparison is skipped entirely: the comparison
result is built directly as `force_training=True` with the other flags at
their defaults, the outcome does not depend on `should_retrain` at all, and
training is always performed. -/
theorem C5_forced_training_amended (env : Env)
    (f g : Bool → Bool → FingerprintComparisonResult)
    (hdom : env.importer.domainEmpty = false)
    (hst : env.importer.storiesEmpty = false)
    (hnlu : env.importer.noPureNluData = false ∨
      env.importer.hasE2eExamples = true) :
    internalComparison env true = forcedComparisonResult ∧
    forcedComparisonResult.force_training = true ∧
    train_async { env with shouldRetrain := f } false true =
      train_async { env with shouldRetrain := g } false true ∧
    Effect.doTraining ∈ (train_async env false true).2 ∧
    (train_async env false true).1 = ⟨some env.fullModel, 0⟩ := by
  refine ⟨rfl, rfl, ?_, ?_, ?_⟩ <;>
    rcases hnlu with h | h <;>
      simp_all [train_async, trainAsyncInternal, internalComparison,
        forcedComparisonResult, FingerprintComparisonResult.is_training_required]

/-- Witness for the amended C5 at `envNoChange` (whose comparison would
report "nothing changed", showing it is ignored under force). -/
theorem C5_forced_training_amended_witness :
    internalComparison envNoChange true = forcedComparisonResult ∧
    forcedComparisonResult.force_training = true ∧
    train_async
        { envNoChange with shouldRetrain := fun _ _ => ⟨false, false, false, false⟩ }
        false true =
      train_async
        { envNoChange with shouldRetrain := fun _ _ => ⟨true, true, true, true⟩ }
        false true ∧
    Effect.doTraining ∈ (train_async envNoChange false true).2 ∧
    (train_async envNoChange false true).1
      = ⟨some "models/full-new.tar.gz", 0⟩ :=
  C5_forced_training_amended envNoChange
    (fun _ _ => ⟨false, false, false, false⟩)
    (fun _ _ => ⟨true, true, true, true⟩) rfl rfl (Or.inl rfl)

/-- C6: a non-dry-run invocation of `train` with a non-empty domain, empty
stories and no pure NLU data does not fail: it prints a user-facing
explanation and returns a `TrainingResult` with `model` none and code 0,
performing no training. -/
theorem C6_no_training_data (env : Env) (force : Bool)
    (hdom : env.importer.domainEmpty = false)
    (hst : env.importer.storiesEmpty = true)
    (hnlu : env.importer.noPureNluData = true) :
    (train_async env false force).1 = ⟨none, 0⟩ ∧
    Effect.printError
        ("No training data given. Please provide stories and NLU data in " ++
         "order to train a Rasa model using the '--data' argument.")
      ∈ (train_async env false force).2 ∧
    ∀ e ∈ (train_async env false force).2, e.isTraining = false := by
  cases hE : env.importer.hasE2eExamples <;>
    simp_all [train_async, trainAsyncInternal, Effect.isTraining]

/-- Witness for C6 at `envForcedNoData` with `force = false`. -/
theorem C6_no_training_data_witness :
    (train_async envForcedNoData false false).1 = ⟨none, 0⟩ ∧
    Effect.printError
        ("No training data given. Please provide stories and NLU data in " ++
         "order to train a Rasa model using the '--data' argument.")
      ∈ (train_async envForcedNoData false false).2 ∧
    ∀ e ∈ (train_async envForcedNoData false false).2, e.isTraining = false :=
  C6_no_training_data envForcedNoData false rfl rfl rfl

/-- C7: every `train_async` invocation with an empty imported domain
degrades rather than fails: its full trace is exactly an NLU-only training
followed by the warning about the missing domain, and the returned
`TrainingResult`'s model is the NLU-only model's location. -/
theorem C7_empty_domain_trains_nlu_only (env : Env) (dry force : Bool)
    (hdom : env.importer.domainEmpty = true) :
    train_async env dry force =
      (⟨some env.nluModel, 0⟩,
        [Effect.trainNlu,
         Effect.printWarning
           ("Core training was skipped because no valid domain file was " ++
            "found. Only an NLU-model was created. Please specify a valid " ++
            "domain using the '--domain' argument or check if the provided " ++
            "domain file exists.")]) := by
  simp [train_async, handle_domain_if_not_exists, hdom]

/-- Witness environment for C7: an empty domain. -/
def envEmptyDomain : Env :=
  { importer :=
      { domainEmpty := true, storiesEmpty := false,
        noPureNluData := false, hasE2eExamples := false }
    oldModel := none
    shouldRetrain := fun _ _ => ⟨true, true, true, false⟩
    nluModel := "models/nlu-only.tar.gz"
    coreModel := "models/core-new.tar.gz"
    fullModel := "models/full-new.tar.gz" }

/-- Witness for C7 at `envEmptyDomain`. -/
theorem C7_empty_domain_trains_nlu_only_witness :
    train_async envEmptyDomain false false =
      (⟨some "models/nlu-only.tar.gz", 0⟩,
        [Effect.trainNlu,
         Effect.printWarning
           ("Core training was skipped because no valid domain file was " ++
            "found. Only an NLU-model was created. Please specify a valid " ++
            "domain using the '--domain' argument or check if the provided " ++
            "domain file exists.")]) :=
  C7_empty_domain_trains_nlu_only envEmptyDomain false false rfl

/-- C8: when the resolved archive's fingerprint is incompatible with the new
fingerprint (`can_finetune` fails), both the Core and the NLU fine-tuning
model resolution terminate fatally with an explicit error message, and the
Core training wrapper that requested fine-tuning aborts with that message —
so it neither falls back to training from scratch nor produces an archive
(a `fatal` outcome carries no effect trace). -/
theorem C8_finetune_incompatible_fatal (env : FinetuneEnv) (p : String)
    (cc tp : Bool)
    (hpath : env.pathToArchive = some p)
    (hcore : env.canFinetune true false = false)
    (hnlu : env.canFinetune cc true = false) :
    coreModelForFinetuning env = .fatal "Core model can not be finetuned." ∧
    nluModelForFinetuning env cc = .fatal "NLU model can not be finetuned." ∧
    trainCoreWithValidatedData env true tp =
      .fatal "Core model can not be finetuned." := by
  simp [coreModelForFinetuning, nluModelForFinetuning,
    trainCoreWithValidatedData, hpath, hcore, hnlu]

/-- Witness environment for C8: an archive resolves but the compatibility
predicate rejects every combination. -/
def envIncompatible : FinetuneEnv :=
  { pathToArchive := some "models/20240101-old.tar.gz"
    canFinetune := fun _ _ => false
    agentOk := true
    interpreterOk := true }

/-- Witness for C8 at `envIncompatible`, for the combined-training NLU call
and a provided train path. -/
theorem C8_finetune_incompatible_fatal_witness :
    coreModelForFinetuning envIncompatible
      = .fatal "Core model can not be finetuned." ∧
    nluModelForFinetuning envIncompatible true
      = .fatal "NLU model can not be finetuned." ∧
    trainCoreWithValidatedData envIncompatible true true
      = .fatal "Core model can not be finetuned." :=
  C8_finetune_incompatible_fatal envIncompatible "models/20240101-old.tar.gz"
    true true rfl rfl rfl

/-- C9: for a non-empty token list, `use_cls_token` true and the text or
response attribute, `add_cls_token` returns the input list with exactly one
CLS token appended, whose offset is the last token's offset plus the length
of the last token's text plus one; in every other case (empty list,
`use_cls_token` false, or any other attribute) the list is returned
unchanged. -/
theorem C9_add_cls_token_spec (u : Bool) (ts : List Token) (a : String) :
    ((a = MESSAGE_TEXT_ATTRIBUTE ∨ a = MESSAGE_RESPONSE_ATTRIBUTE) →
      u = true → ∀ last, ts.getLast? = some last →
        add_cls_token u ts a =
          ts ++ [mkToken CLS_TOKEN
            (last.offset + (last.text.length : Int) + 1) none none none] ∧
        (mkToken CLS_TOKEN (last.offset + (last.text.length : Int) + 1)
            none none none).text = CLS_TOKEN ∧
        (mkToken CLS_TOKEN (last.offset + (last.text.length : Int) + 1)
            none none none).offset
          = last.offset + (last.text.length : Int) + 1) ∧
    ((ts = [] ∨ u = false ∨
        (a ≠ MESSAGE_TEXT_ATTRIBUTE ∧ a ≠ MESSAGE_RESPONSE_ATTRIBUTE)) →
      add_cls_token u ts a = ts) := by
  constructor
  · intro ha hu last hlast
    have hne : ts ≠ [] := by
      intro h
      rw [h] at hlast
      exact Option.noConfusion hlast
    refine ⟨?_, rfl, rfl⟩
    rw [add_cls_token, if_pos ⟨ha.symm.imp id id, hu, hne⟩, hlast]
  · intro h
    rcases h with h | h | h
    · rw [add_cls_token, if_neg]
      · rintro ⟨-, -, hne⟩
        exact hne h
    · rw [add_cls_token, if_neg]
      · rintro ⟨-, hu, -⟩
        rw [h] at hu
        exact Bool.noConfusion hu
    · rw [add_cls_token, if_neg]
      · rintro ⟨ha, -, -⟩
        rcases ha with ha | ha
        · exact h.2 ha
        · exact h.1 ha

/-- Witness for C9: appending the CLS token after the tokens of
"hello world" with the text attribute. -/
theorem C9_add_cls_token_spec_witness :
    add_cls_token true
        [mkToken "hello" 0 none none none, mkToken "world" 6 none none none]
        MESSAGE_TEXT_ATTRIBUTE =
      [mkToken "hello" 0 none none none, mkToken "world" 6 none none none,
        mkToken CLS_TOKEN 12 none none none] ∧
    (mkToken CLS_TOKEN 12 none none none).offset = 12 := by
  have h :=
    (C9_add_cls_token_spec true
      [mkToken "hello" 0 none none none, mkToken "world" 6 none none none]
      MESSAGE_TEXT_ATTRIBUTE).1
      (Or.inl rfl) rfl (mkToken "world" 6 none none none) rfl
  exact ⟨h.1, h.2.2⟩

/-- C10: `Token.__init__` falls back for falsy arguments — an omitted,
`None` or `0` `end` becomes `offset + len(text)`, an omitted, `None` or
empty `lemma` becomes the text — and equality and ordering of two tokens
are determined solely by the tuple `(offset, end, text, lemma)`, ignoring
the `data` dictionary. -/
theorem C10_token_init_and_comparison (text : String) (offset : Int)
    (d : Option (List (String × String))) (l : Option String)
    (e : Option Int) (a b a2 b2 : Token)
    (da db : List (String × String)) :
    ((e = none ∨ e = some 0) →
      (mkToken text offset d l e).end' = offset + (text.length : Int)) ∧
    ((l = none ∨ l = some "") → (mkToken text offset d l e).lemma' = text) ∧
    (Token.eq a b = true ↔ a.key = b.key) ∧
    (Token.eq { a with data := da } { b with data := db } = Token.eq a b) ∧
    (Token.lt { a with data := da } { b with data := db } = Token.lt a b) ∧
    (a.key = a2.key → b.key = b2.key →
      Token.eq a b = Token.eq a2 b2 ∧ Token.lt a b = Token.lt a2 b2) := by
  refine ⟨?_, ?_, ?_, rfl, rfl, ?_⟩
  · rintro (he | he) <;> simp [mkToken, he]
  · rintro (hl | hl) <;> simp [mkToken, hl]
  · simp [Token.eq]
  · intro ha hb
    have ha' := ha
    have hb' := hb
    simp only [Token.key, Prod.mk.injEq] at ha' hb'
    constructor
    · simp [Token.eq, ha, hb]
    · rw [Token.lt, Token.lt, ha'.1, ha'.2.1, ha'.2.2.1, ha'.2.2.2,
        hb'.1, hb'.2.1, hb'.2.2.1, hb'.2.2.2]

/-- Witness for C10: concrete tokens whose keys agree but whose data
dictionaries differ. -/
theorem C10_token_init_and_comparison_witness :
    ((none : Option Int) = none ∨ (none : Option Int) = some 0) ∧
    (mkToken "hi" 3 none none none).end' = 3 + ("hi".length : Int) ∧
    (mkToken "hi" 3 none none none).lemma' = "hi" ∧
    (Token.eq (mkToken "hi" 3 none none none)
        (mkToken "hi" 3 (some [("k", "v")]) none none) = true ↔
      (mkToken "hi" 3 none none none).key
        = (mkToken "hi" 3 (some [("k", "v")]) none none).key) := by
  have h :=
    C10_token_init_and_comparison "hi" 3 none none none
      (mkToken "hi" 3 none none none)
      (mkToken "hi" 3 (some [("k", "v")]) none none)
      (mkToken "hi" 3 none none none)
      (mkToken "hi" 3 (some [("k", "v")]) none none) [] []
  exact ⟨Or.inl rfl, h.1 (Or.inl rfl), h.2.1 (Or.inl rfl), h.2.2.1⟩

end Rasa
